import Mathlib

/-!
Verification development for the jirre ticket tracker
(`src/jirre/main.py`): a shallow embedding of the ticket data model, the
sqlite-backed store operations (`Ticket.get`, `Ticket.new`,
`Ticket.assign_to`, `Ticket.mark_as_done`), the JSON serialization
(`Ticket.asdict`) and the filtered listing (`_list_tickets`), together
with theorems settling the specification claims.

Modelling conventions:
- A sqlite database table is a `List Row` in insertion (rowid) order;
  `UPDATE ... WHERE rowid = :rowid` maps the update over matching rows,
  and `RETURNING ... / fetchone()` returns the first matching row.
- Python `datetime.datetime` values are instants: integer epoch seconds
  plus a microsecond part. `adapt_datetime_epoch` models
  `int(val.timestamp())` (truncation toward zero);
  `DateTime.fromtimestamp` models `datetime.datetime.fromtimestamp` on
  an integer, giving a microsecond part of zero.
- Python optional strings (`str | None`) are `Option String`; Python
  truthiness on them (`if search:`) is the `truthy` predicate, false for
  both `None` and the empty string.
- The fts5 `MATCH` operator of the search join is external to the
  program; it is modelled as an oracle parameter `fts : Row → String →
  Bool`. No claim depends on its behavior.
-/

namespace Jirre

/-- A datetime instant: seconds since the epoch plus a microsecond part.
A valid instant has `usec < 1000000`. -/
structure DateTime where
  sec : Int
  usec : Nat
deriving Repr, DecidableEq

/-- Models `adapt_datetime_epoch`: `int(val.timestamp())`, the timestamp
`sec + usec/1e6` truncated toward zero. -/
def adapt_datetime_epoch (val : DateTime) : Int :=
  if 0 ≤ val.sec ∨ val.usec = 0 then val.sec else val.sec + 1

/-- Models `datetime.datetime.fromtimestamp` applied to an integer epoch
second count, as the instant it denotes. -/
def DateTime.fromtimestamp (n : Int) : DateTime :=
  { sec := n, usec := 0 }

def pad2 (n : Nat) : String :=
  if n < 10 then "0" ++ toString n else toString n

def pad4 (n : Nat) : String :=
  if n < 10 then "000" ++ toString n
  else if n < 100 then "00" ++ toString n
  else if n < 1000 then "0" ++ toString n
  else toString n

def pad6 (n : Nat) : String :=
  let s := toString n
  let k := 6 - s.length
  String.mk (List.replicate k '0') ++ s

/-- Civil date (year, month, day) of a day count relative to 1970-01-01
(Gregorian, proleptic). -/
def civilFromDays (z0 : Int) : Int × Nat × Nat :=
  let z := z0 + 719468
  let era := z.ediv 146097
  let doe := (z - era * 146097).toNat
  let yoe := (doe - doe / 1460 + doe / 36524 - doe / 146096) / 365
  let y := (yoe : Int) + era * 400
  let doy := doe - (365 * yoe + yoe / 4 - yoe / 100)
  let mp := (5 * doy + 2) / 153
  let d := doy - (153 * mp + 2) / 5 + 1
  let m := if mp < 10 then mp + 3 else mp - 9
  (if m ≤ 2 then y + 1 else y, m, d)

/-- Models `datetime.isoformat()` on the instants produced by
`fromtimestamp`: `YYYY-MM-DDTHH:MM:SS`, with a `.ffffff` suffix only
when the microsecond part is nonzero. -/
def DateTime.isoformat (dt : DateTime) : String :=
  let days := dt.sec.ediv 86400
  let sod := (dt.sec.emod 86400).toNat
  let ymd := civilFromDays days
  let y := ymd.1
  let m := ymd.2.1
  let d := ymd.2.2
  let hh := sod / 3600
  let mm := sod % 3600 / 60
  let ss := sod % 60
  pad4 y.toNat ++ "-" ++ pad2 m ++ "-" ++ pad2 d ++ "T" ++
    pad2 hh ++ ":" ++ pad2 mm ++ ":" ++ pad2 ss ++
    (if dt.usec = 0 then "" else "." ++ pad6 dt.usec)

/-- One row of the `ticket` table, per the schema in `setup_db`:
`status`, `created_by`, `created_at` are NOT NULL; `assigned_to`,
`updated_by`, `updated_at` are nullable; `notes` defaults to the empty
string; timestamps are stored as integer epoch seconds (via the
registered `adapt_datetime_epoch` adapter). -/
structure Row where
  rowid : Nat
  name : String
  description : String
  project : String
  status : String
  assigned_to : Option String
  notes : String
  created_by : String
  updated_by : Option String
  created_at : Int
  updated_at : Option Int
deriving Repr, DecidableEq

/-- The in-memory `Ticket` dataclass. `updated_by` is nullable in the
database and passes through `row_factory` unconverted, so it is an
`Option String` here; `created_at` and `updated_at` are converted to
datetimes by `row_factory`. -/
structure Ticket where
  rowid : Nat
  name : String
  description : String
  project : String
  status : String
  assigned_to : Option String
  notes : String
  created_by : String
  updated_by : Option String
  created_at : DateTime
  updated_at : Option DateTime
deriving Repr, DecidableEq

def Ticket.TODO : String := "TODO"
def Ticket.DOING : String := "DOING"
def Ticket.DONE : String := "DONE"

/-- Models `Ticket.row_factory`: copies the raw columns, converts
`created_at` with `fromtimestamp`, and converts `updated_at` only when
it is truthy (`if updated_at:`), so a NULL stays absent. A stored
`updated_at` of exactly 0 is falsy in Python and is left as the raw
integer 0, which every consumer (`asdict`, `add_to_table`) then treats
exactly like an absent value; it is therefore modelled as `none`. -/
def Ticket.row_factory (r : Row) : Ticket :=
  { rowid := r.rowid
    name := r.name
    description := r.description
    project := r.project
    status := r.status
    assigned_to := r.assigned_to
    notes := r.notes
    created_by := r.created_by
    updated_by := r.updated_by
    created_at := DateTime.fromtimestamp r.created_at
    updated_at :=
      match r.updated_at with
      | some n => if n = 0 then none else some (DateTime.fromtimestamp n)
      | none => none }

/-- First row matching a rowid: `SELECT ... WHERE rowid = :rowid`
followed by `fetchone()`. -/
def findRow (db : List Row) (i : Nat) : Option Row :=
  db.find? (fun r => r.rowid == i)

/-- Models `Ticket.get`: fetch one row by rowid through `row_factory`.
When no row matches, `fetchone()` yields None, modelled as `none`. -/
def Ticket.get (db : List Row) (rowid : Nat) : Option Ticket :=
  (findRow db rowid).map Ticket.row_factory

/-- The rowid sqlite assigns to a fresh insert: one more than the
largest existing rowid. -/
def nextRowid (db : List Row) : Nat :=
  db.foldr (fun r acc => Nat.max r.rowid acc) 0 + 1

/-- The row inserted by `Ticket.new`: fresh rowid, `status =
Ticket.TODO`, `notes` from its column default, `updated_by` and
`updated_at` left NULL, `created_at` adapted to epoch seconds. -/
def insertedRow (db : List Row) (name description project : String)
    (assigned_to : Option String) (created_by : String)
    (current_datetime : DateTime) : Row :=
  { rowid := nextRowid db
    name := name
    description := description
    project := project
    status := Ticket.TODO
    assigned_to := assigned_to
    notes := ""
    created_by := created_by
    updated_by := none
    created_at := adapt_datetime_epoch current_datetime
    updated_at := none }

/-- Models `Ticket.new`: `INSERT INTO ticket (name, description,
project, status, assigned_to, created_by, created_at) VALUES ...
RETURNING ...`. Returns the new table state and the inserted row
through `row_factory`. -/
def Ticket.new (db : List Row) (name description project : String)
    (assigned_to : Option String) (created_by : String)
    (current_datetime : DateTime) : List Row × Ticket :=
  let row : Row :=
    insertedRow db name description project assigned_to created_by
      current_datetime
  (db ++ [row], Ticket.row_factory row)

/-- `UPDATE ticket SET ... WHERE rowid = :rowid`: apply the column
update to every matching row (rowid is unique in sqlite, so at most
one). -/
def dbUpdate (db : List Row) (i : Nat) (f : Row → Row) : List Row :=
  db.map (fun r => if r.rowid == i then f r else r)

/-- The column update applied by `Ticket.assign_to`: `SET status =
:status, assigned_to = :assigned_to, updated_by = :updated_by,
updated_at = :updated_at`. -/
def assignedRow (r : Row) (status : String) (assigned_to : Option String)
    (updated_by : String) (current_datetime : DateTime) : Row :=
  { r with
    status := status
    assigned_to := assigned_to
    updated_by := some updated_by
    updated_at := some (adapt_datetime_epoch current_datetime) }

/-- The column update applied by `Ticket.mark_as_done`: `SET status =
:status, notes = :notes, assigned_to = NULL, updated_by = :updated_by,
updated_at = :updated_at` with `status = Ticket.DONE`. -/
def doneRow (r : Row) (notes updated_by : String)
    (current_datetime : DateTime) : Row :=
  { r with
    status := Ticket.DONE
    notes := notes
    assigned_to := none
    updated_by := some updated_by
    updated_at := some (adapt_datetime_epoch current_datetime) }

/-- Models `Ticket.assign_to`: `UPDATE ticket SET status = :status,
assigned_to = :assigned_to, updated_by = :updated_by, updated_at =
:updated_at WHERE rowid = :rowid RETURNING ...`. Returns the new table
state and the returned row (none when the rowid matches nothing). -/
def Ticket.assign_to (db : List Row) (rowid : Nat) (status : String)
    (assigned_to : Option String) (updated_by : String)
    (current_datetime : DateTime) : List Row × Option Ticket :=
  let db2 := dbUpdate db rowid (fun r =>
    assignedRow r status assigned_to updated_by current_datetime)
  (db2, (findRow db2 rowid).map Ticket.row_factory)

/-- Models `Ticket.mark_as_done`: `UPDATE ticket SET status = :status,
notes = :notes, assigned_to = NULL, updated_by = :updated_by,
updated_at = :updated_at WHERE rowid = :rowid RETURNING ...`. -/
def Ticket.mark_as_done (db : List Row) (rowid : Nat) (notes : String)
    (updated_by : String) (current_datetime : DateTime) :
    List Row × Option Ticket :=
  let db2 := dbUpdate db rowid (fun r =>
    doneRow r notes updated_by current_datetime)
  (db2, (findRow db2 rowid).map Ticket.row_factory)

/-- A Python value appearing in the dict built by `Ticket.asdict`:
either a string or None. -/
inductive PyVal where
  | str (s : String) : PyVal
  | nil : PyVal
deriving Repr, DecidableEq

/-- Models `Ticket.asdict` faithfully, key order included. Falsy
`assigned_to`, `updated_at` and `project` are replaced by the empty
string; `updated_by` is passed through unconverted, so a None
`updated_by` stays None in the dict. -/
def Ticket.asdict (t : Ticket) : List (String × PyVal) :=
  let assigned_to :=
    match t.assigned_to with
    | some s => if s = "" then "" else s
    | none => ""
  let updated_at :=
    match t.updated_at with
    | some d => d.isoformat
    | none => ""
  let project := if t.project = "" then "" else t.project
  [ ("rowid", PyVal.str (toString t.rowid)),
    ("name", PyVal.str t.name),
    ("description", PyVal.str t.description),
    ("project", PyVal.str project),
    ("status", PyVal.str t.status),
    ("assigned_to", PyVal.str assigned_to),
    ("notes", PyVal.str t.notes),
    ("created_by", PyVal.str t.created_by),
    ("updated_by",
      match t.updated_by with
      | some s => PyVal.str s
      | none => PyVal.nil),
    ("created_at", PyVal.str t.created_at.isoformat),
    ("updated_at", PyVal.str updated_at) ]

/-- Python truthiness of a `str | None` value: None and the empty
string are falsy. -/
def truthy : Option String → Bool
  | none => false
  | some s => !s.isEmpty

/-- The SELECT clause of `_list_tickets` before any dynamic part. -/
def listBaseSQL : String :=
  "
    SELECT
        t.rowid,
        t.name,
        t.description,
        t.project,
        t.status,
        t.assigned_to,
        t.notes,
        t.created_by,
        t.created_at,
        t.updated_by,
        t.updated_at
    FROM ticket t
    "

/-- The fts join appended by `_list_tickets` when `search` is truthy. -/
def listSearchJoinSQL : String :=
  "
            INNER JOIN ticket_fts ON ticket_fts.rowid  = t.rowid
                AND ticket_fts MATCH :search
        "

/-- Models the query construction of `_list_tickets`: the SQL text is
built by appending the search join and each equality clause only when
the corresponding argument is truthy, and every value goes into the
parameter mapping (in the order search, status, assigned_to,
created_by), never into the SQL text. -/
def listTicketsSQL (search status assigned_to created_by : Option String) :
    String × List (String × String) :=
  let sql := listBaseSQL ++ (if truthy search then listSearchJoinSQL else "")
  let sql := sql ++ "WHERE 1 = 1"
  let sql := sql ++ (if truthy status then "    AND t.status = :status" else "")
  let sql := sql ++
    (if truthy assigned_to then "    AND t.assigned_to = :assigned_to" else "")
  let sql := sql ++
    (if truthy created_by then "    AND t.created_by = :created_by" else "")
  let params :=
    (if truthy search then [("search", search.getD "")] else []) ++
    (if truthy status then [("status", status.getD "")] else []) ++
    (if truthy assigned_to then [("assigned_to", assigned_to.getD "")] else []) ++
    (if truthy created_by then [("created_by", created_by.getD "")] else [])
  (sql, params)

/-- Relational semantics of the query executed by `_list_tickets`: rows
of the ticket table, restricted by the fts join when `search` is truthy
(fts5 MATCH is the oracle `fts`), then by each equality clause that was
appended. A NULL `assigned_to` never satisfies the sqlite equality
`t.assigned_to = :assigned_to`. Results pass through `row_factory`. -/
def runListTickets (fts : Row → String → Bool) (db : List Row)
    (search status assigned_to created_by : Option String) : List Ticket :=
  let rows := if truthy search then db.filter (fun r => fts r (search.getD "")) else db
  let rows := if truthy status then rows.filter (fun r => r.status == status.getD "") else rows
  let rows :=
    if truthy assigned_to then
      rows.filter (fun r => r.assigned_to == some (assigned_to.getD ""))
    else rows
  let rows :=
    if truthy created_by then
      rows.filter (fun r => r.created_by == created_by.getD "")
    else rows
  rows.map Ticket.row_factory

/-- Models `assign_todo_handler` on the store: an omitted or falsy
`--assign_to` becomes None; the fetched ticket is transitioned to TODO.
When the fetch finds nothing the handler dereferences None and crashes,
modelled as `none`. -/
def assign_todo_handler (db : List Row) (rowid : Nat)
    (assign_to_arg : Option String) (user : String)
    (current_datetime : DateTime) : Option (List Row × Option Ticket) :=
  let assigned_to := if truthy assign_to_arg then assign_to_arg else none
  match Ticket.get db rowid with
  | some ticket =>
      some (Ticket.assign_to db ticket.rowid Ticket.TODO assigned_to user
        current_datetime)
  | none => none

/-- Models `assign_doing_handler` on the store: `args.assign_to or
user`, so an omitted or falsy `--assign_to` defaults to the caller
identity; the fetched ticket is transitioned to DOING. -/
def assign_doing_handler (db : List Row) (rowid : Nat)
    (assign_to_arg : Option String) (user : String)
    (current_datetime : DateTime) : Option (List Row × Option Ticket) :=
  let assigned_to := if truthy assign_to_arg then assign_to_arg.getD "" else user
  match Ticket.get db rowid with
  | some ticket =>
      some (Ticket.assign_to db ticket.rowid Ticket.DOING (some assigned_to)
        user current_datetime)
  | none => none

/-- Models `mark_as_done_handler` on the store: fetch, then
`mark_as_done`. When the fetch finds nothing the handler dereferences
None and crashes, modelled as `none`. -/
def mark_as_done_handler (db : List Row) (rowid : Nat) (notes : String)
    (user : String) (current_datetime : DateTime) :
    Option (List Row × Option Ticket) :=
  match Ticket.get db rowid with
  | some ticket =>
      some (Ticket.mark_as_done db ticket.rowid notes user current_datetime)
  | none => none

/-! ## Shared lemmas about the store model -/

theorem findRow_rowid_eq {db : List Row} {i : Nat} {r : Row}
    (h : findRow db i = some r) : r.rowid = i := by
  have hp := List.find?_some h
  exact beq_iff_eq.mp hp

theorem findRow_dbUpdate (db : List Row) (i : Nat) (f : Row → Row)
    (hf : ∀ r, (f r).rowid = r.rowid) :
    findRow (dbUpdate db i f) i = (findRow db i).map f := by
  induction db with
  | nil => rfl
  | cons a rest ih =>
    unfold dbUpdate findRow at *
    simp only [List.map_cons]
    by_cases h : (a.rowid == i) = true
    · rw [if_pos h]
      have h2 : ((f a).rowid == i) = true := by rw [hf a]; exact h
      simp only [List.find?_cons, h2, h, Option.map_some']
    · rw [if_neg h]
      simp only [Bool.not_eq_true] at h
      simp only [List.find?_cons, h]
      exact ih

theorem rowid_le_fold {db : List Row} {r : Row} (h : r ∈ db) :
    r.rowid ≤ db.foldr (fun x acc => Nat.max x.rowid acc) 0 := by
  induction db with
  | nil => cases h
  | cons a rest ih =>
    rcases List.mem_cons.mp h with h1 | h2
    · subst h1; exact Nat.le_max_left _ _
    · exact le_trans (ih h2) (Nat.le_max_right _ _)

theorem rowid_lt_nextRowid {db : List Row} {r : Row} (h : r ∈ db) :
    r.rowid < nextRowid db :=
  Nat.lt_succ_of_le (rowid_le_fold h)

theorem findRow_append_fresh (db : List Row) (row : Row)
    (h : ∀ r ∈ db, r.rowid ≠ row.rowid) :
    findRow (db ++ [row]) row.rowid = some row := by
  unfold findRow
  rw [List.find?_append]
  have h1 : db.find? (fun r => r.rowid == row.rowid) = none :=
    List.find?_eq_none.mpr (fun x hx => by
      simp only [ne_eq, beq_iff_eq]
      exact h x hx)
  rw [h1]
  simp

/-! ## Sample data for concrete witnesses -/

def sampleRow : Row :=
  { rowid := 1
    name := "Fix login bug"
    description := "Broken login"
    project := "web"
    status := "DONE"
    assigned_to := some "bob"
    notes := ""
    created_by := "alice"
    updated_by := none
    created_at := 1700000000
    updated_at := none }

def sampleDb : List Row := [sampleRow]

/-! ## Claim theorems -/

/-- C1: for every ticket, regardless of its prior status, after
`mark_as_done` with supplied notes, updated_by and timestamp, both the
returned ticket and the stored row have status DONE, a cleared
assignee, and notes equal to the supplied value. -/
theorem mark_as_done_completion_invariant (db : List Row) (i : Nat)
    (notes updated_by : String) (now : DateTime) (r : Row)
    (h : findRow db i = some r) :
    (∃ t : Ticket,
       (Ticket.mark_as_done db i notes updated_by now).2 = some t ∧
       t.status = Ticket.DONE ∧ t.assigned_to = none ∧ t.notes = notes) ∧
    (∃ r2 : Row,
       findRow (Ticket.mark_as_done db i notes updated_by now).1 i = some r2 ∧
       r2.status = Ticket.DONE ∧ r2.assigned_to = none ∧ r2.notes = notes) := by
  simp only [Ticket.mark_as_done]
  rw [findRow_dbUpdate db i
      (fun x => doneRow x notes updated_by now) (fun _ => rfl), h]
  exact ⟨⟨_, rfl, rfl, rfl, rfl⟩, ⟨_, rfl, rfl, rfl, rfl⟩⟩

/-- Witness for C1 at a concrete one-row database (a DONE ticket being
completed again). -/
theorem mark_as_done_completion_invariant_witness :
    (∃ t : Ticket,
       (Ticket.mark_as_done sampleDb 1 "fixed in v2" "bob" ⟨1700000100, 0⟩).2 = some t ∧
       t.status = Ticket.DONE ∧ t.assigned_to = none ∧ t.notes = "fixed in v2") ∧
    (∃ r2 : Row,
       findRow (Ticket.mark_as_done sampleDb 1 "fixed in v2" "bob" ⟨1700000100, 0⟩).1 1 = some r2 ∧
       r2.status = Ticket.DONE ∧ r2.assigned_to = none ∧ r2.notes = "fixed in v2") :=
  mark_as_done_completion_invariant sampleDb 1 "fixed in v2" "bob"
    ⟨1700000100, 0⟩ sampleRow (by rfl)

/-- C2: creating a ticket and then fetching it by its assigned
identifier yields the very same ticket value, field for field; the
fresh ticket has `updated_by` and `updated_at` absent, and its
`created_at` is the supplied timestamp at second precision: it is the
truncated epoch value, within one second (one million microseconds) of
the supplied instant. -/
theorem new_get_round_trip (db : List Row)
    (name description project : String) (assigned_to : Option String)
    (created_by : String) (now : DateTime) (hv : now.usec < 1000000) :
    Ticket.get (Ticket.new db name description project assigned_to created_by now).1
        (Ticket.new db name description project assigned_to created_by now).2.rowid
      = some (Ticket.new db name description project assigned_to created_by now).2 ∧
    ((Ticket.new db name description project assigned_to created_by now).2.name = name ∧
     (Ticket.new db name description project assigned_to created_by now).2.description = description ∧
     (Ticket.new db name description project assigned_to created_by now).2.project = project ∧
     (Ticket.new db name description project assigned_to created_by now).2.status = Ticket.TODO ∧
     (Ticket.new db name description project assigned_to created_by now).2.assigned_to = assigned_to ∧
     (Ticket.new db name description project assigned_to created_by now).2.notes = "" ∧
     (Ticket.new db name description project assigned_to created_by now).2.created_by = created_by) ∧
    (Ticket.new db name description project assigned_to created_by now).2.updated_by = none ∧
    (Ticket.new db name description project assigned_to created_by now).2.updated_at = none ∧
    (Ticket.new db name description project assigned_to created_by now).2.created_at
      = DateTime.fromtimestamp (adapt_datetime_epoch now) ∧
    (((Ticket.new db name description project assigned_to created_by now).2.created_at.sec
        * 1000000 : Int)
      - (now.sec * 1000000 + now.usec)).natAbs < 1000000 := by
  refine ⟨?_, ⟨rfl, rfl, rfl, rfl, rfl, rfl, rfl⟩, rfl, rfl, rfl, ?_⟩
  · have hget : findRow
        (db ++ [insertedRow db name description project assigned_to created_by now])
        (insertedRow db name description project assigned_to created_by now).rowid
        = some (insertedRow db name description project assigned_to created_by now) :=
      findRow_append_fresh db _ (fun r hr => Nat.ne_of_lt (rowid_lt_nextRowid hr))
    show (findRow
        (db ++ [insertedRow db name description project assigned_to created_by now])
        (insertedRow db name description project assigned_to created_by now).rowid).map
          Ticket.row_factory = _
    rw [hget]
    rfl
  · show ((adapt_datetime_epoch now * 1000000 : Int)
      - (now.sec * 1000000 + now.usec)).natAbs < 1000000
    unfold adapt_datetime_epoch
    split <;> omega

/-- Witness for C2 at a concrete creation. -/
theorem new_get_round_trip_witness :
    (⟨1700000000, 500000⟩ : DateTime).usec < 1000000 ∧
    (Ticket.get (Ticket.new [] "Fix login bug" "Broken login" "web" (some "alice") "alice" ⟨1700000000, 500000⟩).1
        (Ticket.new [] "Fix login bug" "Broken login" "web" (some "alice") "alice" ⟨1700000000, 500000⟩).2.rowid
      = some (Ticket.new [] "Fix login bug" "Broken login" "web" (some "alice") "alice" ⟨1700000000, 500000⟩).2 ∧
    ((Ticket.new [] "Fix login bug" "Broken login" "web" (some "alice") "alice" ⟨1700000000, 500000⟩).2.name = "Fix login bug" ∧
     (Ticket.new [] "Fix login bug" "Broken login" "web" (some "alice") "alice" ⟨1700000000, 500000⟩).2.description = "Broken login" ∧
     (Ticket.new [] "Fix login bug" "Broken login" "web" (some "alice") "alice" ⟨1700000000, 500000⟩).2.project = "web" ∧
     (Ticket.new [] "Fix login bug" "Broken login" "web" (some "alice") "alice" ⟨1700000000, 500000⟩).2.status = Ticket.TODO ∧
     (Ticket.new [] "Fix login bug" "Broken login" "web" (some "alice") "alice" ⟨1700000000, 500000⟩).2.assigned_to = some "alice" ∧
     (Ticket.new [] "Fix login bug" "Broken login" "web" (some "alice") "alice" ⟨1700000000, 500000⟩).2.notes = "" ∧
     (Ticket.new [] "Fix login bug" "Broken login" "web" (some "alice") "alice" ⟨1700000000, 500000⟩).2.created_by = "alice") ∧
    (Ticket.new [] "Fix login bug" "Broken login" "web" (some "alice") "alice" ⟨1700000000, 500000⟩).2.updated_by = none ∧
    (Ticket.new [] "Fix login bug" "Broken login" "web" (some "alice") "alice" ⟨1700000000, 500000⟩).2.updated_at = none ∧
    (Ticket.new [] "Fix login bug" "Broken login" "web" (some "alice") "alice" ⟨1700000000, 500000⟩).2.created_at
      = DateTime.fromtimestamp (adapt_datetime_epoch ⟨1700000000, 500000⟩) ∧
    (((Ticket.new [] "Fix login bug" "Broken login" "web" (some "alice") "alice" ⟨1700000000, 500000⟩).2.created_at.sec
        * 1000000 : Int)
      - ((1700000000 : Int) * 1000000 + (500000 : Nat))).natAbs < 1000000) :=
  ⟨by decide,
   new_get_round_trip [] "Fix login bug" "Broken login" "web" (some "alice")
     "alice" ⟨1700000000, 500000⟩ (by decide)⟩

/-- Equality predicate denoted by an optional filter on a NOT NULL text
column: an absent filter constrains nothing. -/
def matchOptStr (v : String) : Option String → Bool
  | none => true
  | some s => v == s

/-- Equality predicate denoted by an optional filter on the nullable
`assigned_to` column: an absent filter constrains nothing, and a NULL
column value never satisfies the sqlite equality. -/
def matchOptAssigned (v : Option String) : Option String → Bool
  | none => true
  | some s => v == some s

def sampleRow2 : Row :=
  { rowid := 2
    name := "Write docs"
    description := "User guide"
    project := "web"
    status := "TODO"
    assigned_to := none
    notes := ""
    created_by := "alice"
    updated_by := none
    created_at := 1700000300
    updated_at := none }

def sampleDb2 : List Row := [sampleRow, sampleRow2]

/-- C3: with no search, the listing returns exactly the tickets
satisfying the conjunction of the supplied equality filters (each
supplied filter being an actual value: `none` or a non-empty string,
which is what `truthy f = f.isSome` states), and with no filters at all
it returns the full ticket set. -/
theorem list_tickets_filter_correct (fts : Row → String → Bool)
    (db : List Row) (status assigned_to created_by : Option String)
    (hs : truthy status = status.isSome)
    (ha : truthy assigned_to = assigned_to.isSome)
    (hc : truthy created_by = created_by.isSome) :
    runListTickets fts db none status assigned_to created_by
      = (db.filter (fun r =>
          matchOptStr r.status status &&
          matchOptAssigned r.assigned_to assigned_to &&
          matchOptStr r.created_by created_by)).map Ticket.row_factory ∧
    runListTickets fts db none none none none = db.map Ticket.row_factory := by
  constructor
  · rcases status with _ | s <;> rcases assigned_to with _ | a <;>
      rcases created_by with _ | c <;>
      simp_all [runListTickets, truthy, matchOptStr, matchOptAssigned,
        Bool.and_assoc, Bool.and_comm, Bool.and_left_comm]
  · simp [runListTickets, truthy]

/-- Witness for C3: a DONE filter plus a creator filter on a two-row
database. -/
theorem list_tickets_filter_correct_witness :
    (truthy (some "DONE") = (some "DONE" : Option String).isSome ∧
     truthy none = (none : Option String).isSome ∧
     truthy (some "alice") = (some "alice" : Option String).isSome) ∧
    (runListTickets (fun _ _ => false) sampleDb2 none (some "DONE") none (some "alice")
      = (sampleDb2.filter (fun r =>
          matchOptStr r.status (some "DONE") &&
          matchOptAssigned r.assigned_to none &&
          matchOptStr r.created_by (some "alice"))).map Ticket.row_factory ∧
     runListTickets (fun _ _ => false) sampleDb2 none none none none
      = sampleDb2.map Ticket.row_factory) :=
  ⟨⟨rfl, rfl, rfl⟩,
   list_tickets_filter_correct (fun _ _ => false) sampleDb2 (some "DONE") none
     (some "alice") rfl rfl rfl⟩

/-- C4: evaluation of the code at the failing input. Fetching a rowid
with no matching row yields no result instead of a distinct NotFound
failure, and `mark_as_done_handler` then dereferences the absent result
(an AttributeError crash, modelled as `none`). -/
theorem get_missing_rowid_returns_none :
    Ticket.get ([] : List Row) 1 = none ∧
    Ticket.get sampleDb 42 = none ∧
    mark_as_done_handler sampleDb 42 "some notes" "bob" ⟨1700000100, 0⟩ = none :=
  ⟨rfl, rfl, rfl⟩

/-- C5 counterexample: for a ticket that has never been mutated,
`updated_by` is None and `asdict` serializes it as None, not as the
empty string the claim requires. -/
theorem asdict_null_updated_by_not_empty_string :
    (Ticket.row_factory sampleRow).updated_by = none ∧
    ((Ticket.row_factory sampleRow).asdict).lookup "updated_by" = some PyVal.nil ∧
    (PyVal.nil : PyVal) ≠ PyVal.str "" :=
  ⟨rfl, rfl, by decide⟩

/-- C5 (amended): the serialized ticket has exactly the eleven expected
keys in order; every value is a string — timestamps rendered with
isoformat, the empty string standing in for an absent `assigned_to` or
`updated_at` — except that a null `updated_by` is serialized as None
(JSON null) rather than the empty string. -/
theorem asdict_shape (t : Ticket) :
    (t.asdict).map Prod.fst
      = ["rowid", "name", "description", "project", "status",
         "assigned_to", "notes", "created_by", "updated_by",
         "created_at", "updated_at"] ∧
    (t.asdict).lookup "rowid" = some (PyVal.str (toString t.rowid)) ∧
    (t.asdict).lookup "name" = some (PyVal.str t.name) ∧
    (t.asdict).lookup "description" = some (PyVal.str t.description) ∧
    (t.asdict).lookup "project" = some (PyVal.str t.project) ∧
    (t.asdict).lookup "status" = some (PyVal.str t.status) ∧
    (t.asdict).lookup "assigned_to"
      = some (PyVal.str (t.assigned_to.getD "")) ∧
    (t.asdict).lookup "notes" = some (PyVal.str t.notes) ∧
    (t.asdict).lookup "created_by" = some (PyVal.str t.created_by) ∧
    (t.asdict).lookup "updated_by"
      = some (match t.updated_by with
          | some s => PyVal.str s
          | none => PyVal.nil) ∧
    (t.asdict).lookup "created_at" = some (PyVal.str t.created_at.isoformat) ∧
    (t.asdict).lookup "updated_at"
      = some (PyVal.str (match t.updated_at with
          | some d => d.isoformat
          | none => "")) := by
  refine ⟨rfl, rfl, rfl, rfl, ?_, rfl, ?_, rfl, rfl, rfl, rfl, rfl⟩
  · by_cases h : t.project = ""
    · simp only [Ticket.asdict, h]; rfl
    · simp only [Ticket.asdict, if_neg h]; rfl
  · rcases ha : t.assigned_to with _ | s
    · simp only [Ticket.asdict, ha]; rfl
    · by_cases h : s = ""
      · simp only [Ticket.asdict, ha, h]; rfl
      · simp only [Ticket.asdict, ha, if_neg h]; rfl

/-- C6: the listing query text depends only on which filters are
present (truthy), never on their values — two filter assignments with
the same presence pattern yield character-identical SQL — and every
present value travels as a bound parameter under its placeholder
name. -/
theorem list_sql_parameterized
    (s1 st1 a1 c1 s2 st2 a2 c2 : Option String)
    (hs : truthy s1 = truthy s2) (hst : truthy st1 = truthy st2)
    (ha : truthy a1 = truthy a2) (hc : truthy c1 = truthy c2) :
    (listTicketsSQL s1 st1 a1 c1).1 = (listTicketsSQL s2 st2 a2 c2).1 ∧
    (∀ v, s1 = some v → truthy s1 = true →
      ("search", v) ∈ (listTicketsSQL s1 st1 a1 c1).2) ∧
    (∀ v, st1 = some v → truthy st1 = true →
      ("status", v) ∈ (listTicketsSQL s1 st1 a1 c1).2) ∧
    (∀ v, a1 = some v → truthy a1 = true →
      ("assigned_to", v) ∈ (listTicketsSQL s1 st1 a1 c1).2) ∧
    (∀ v, c1 = some v → truthy c1 = true →
      ("created_by", v) ∈ (listTicketsSQL s1 st1 a1 c1).2) := by
  refine ⟨?_, ?_, ?_, ?_, ?_⟩
  · simp only [listTicketsSQL, hs, hst, ha, hc]
  · rintro v rfl hv; simp [listTicketsSQL, hv]
  · rintro v rfl hv; simp [listTicketsSQL, hv]
  · rintro v rfl hv; simp [listTicketsSQL, hv]
  · rintro v rfl hv; simp [listTicketsSQL, hv]

/-- Witness for C6: two filter assignments with equal presence but
different values (including an empty string paired with an absent
filter) give the same SQL text, and the present values appear among the
bound parameters. -/
theorem list_sql_parameterized_witness :
    (truthy (some "run") = truthy (some "walk") ∧
     truthy (some "TODO") = truthy (some "DONE") ∧
     truthy (none : Option String) = truthy (some "") ∧
     truthy (some "") = truthy (none : Option String)) ∧
    ((listTicketsSQL (some "run") (some "TODO") none (some "")).1
       = (listTicketsSQL (some "walk") (some "DONE") (some "") none).1 ∧
     (∀ v, (some "run" : Option String) = some v → truthy (some "run") = true →
       ("search", v) ∈ (listTicketsSQL (some "run") (some "TODO") none (some "")).2) ∧
     (∀ v, (some "TODO" : Option String) = some v → truthy (some "TODO") = true →
       ("status", v) ∈ (listTicketsSQL (some "run") (some "TODO") none (some "")).2) ∧
     (∀ v, (none : Option String) = some v → truthy (none : Option String) = true →
       ("assigned_to", v) ∈ (listTicketsSQL (some "run") (some "TODO") none (some "")).2) ∧
     (∀ v, (some "" : Option String) = some v → truthy (some "") = true →
       ("created_by", v) ∈ (listTicketsSQL (some "run") (some "TODO") none (some "")).2)) :=
  ⟨⟨rfl, rfl, rfl, rfl⟩,
   list_sql_parameterized (some "run") (some "TODO") none (some "")
     (some "walk") (some "DONE") (some "") none rfl rfl rfl rfl⟩

theorem assign_to_findRow (db : List Row) (i : Nat) (st : String)
    (ato : Option String) (ub : String) (now : DateTime) (r : Row)
    (h : findRow db i = some r) :
    findRow (Ticket.assign_to db i st ato ub now).1 i
      = some (assignedRow r st ato ub now) ∧
    (Ticket.assign_to db i st ato ub now).2
      = some (Ticket.row_factory (assignedRow r st ato ub now)) := by
  simp only [Ticket.assign_to]
  rw [findRow_dbUpdate db i
      (fun x => assignedRow x st ato ub now) (fun _ => rfl), h]
  exact ⟨rfl, rfl⟩

/-- C7: on an existing ticket, the todo transition with an omitted
assignee clears the assignee and sets status TODO; the doing transition
with an omitted assignee assigns the caller identity and sets status
DOING; and with an assignee given, both transitions set the given
value. -/
theorem transition_handlers_assignment (db : List Row) (i : Nat)
    (user a : String) (now : DateTime) (r : Row)
    (h : findRow db i = some r) (hne : a ≠ "") :
    (∃ res, assign_todo_handler db i none user now = some res ∧
      ∃ r2, findRow res.1 i = some r2 ∧
        r2.status = Ticket.TODO ∧ r2.assigned_to = none) ∧
    (∃ res, assign_todo_handler db i (some a) user now = some res ∧
      ∃ r2, findRow res.1 i = some r2 ∧
        r2.status = Ticket.TODO ∧ r2.assigned_to = some a) ∧
    (∃ res, assign_doing_handler db i none user now = some res ∧
      ∃ r2, findRow res.1 i = some r2 ∧
        r2.status = Ticket.DOING ∧ r2.assigned_to = some user) ∧
    (∃ res, assign_doing_handler db i (some a) user now = some res ∧
      ∃ r2, findRow res.1 i = some r2 ∧
        r2.status = Ticket.DOING ∧ r2.assigned_to = some a) := by
  have hri : r.rowid = i := findRow_rowid_eq h
  have hget : Ticket.get db i = some (Ticket.row_factory r) := by
    unfold Ticket.get; rw [h]; rfl
  have hempty : a.isEmpty = false := by
    cases hb : a.isEmpty
    · rfl
    · exact absurd ((String.isEmpty_iff a).mp hb) hne
  have hta : truthy (some a) = true := by simp [truthy, hempty]
  refine ⟨?_, ?_, ?_, ?_⟩
  · refine ⟨Ticket.assign_to db i Ticket.TODO none user now, ?_,
      assignedRow r Ticket.TODO none user now,
      (assign_to_findRow db i Ticket.TODO none user now r h).1, rfl, rfl⟩
    simp only [assign_todo_handler, hget, truthy]
    exact congrArg (fun n => some (Ticket.assign_to db n Ticket.TODO none user now))
      (show (Ticket.row_factory r).rowid = i from hri)
  · refine ⟨Ticket.assign_to db i Ticket.TODO (some a) user now, ?_,
      assignedRow r Ticket.TODO (some a) user now,
      (assign_to_findRow db i Ticket.TODO (some a) user now r h).1, rfl, rfl⟩
    simp only [assign_todo_handler, hget, hta]
    exact congrArg (fun n => some (Ticket.assign_to db n Ticket.TODO (some a) user now))
      (show (Ticket.row_factory r).rowid = i from hri)
  · refine ⟨Ticket.assign_to db i Ticket.DOING (some user) user now, ?_,
      assignedRow r Ticket.DOING (some user) user now,
      (assign_to_findRow db i Ticket.DOING (some user) user now r h).1, rfl, rfl⟩
    simp only [assign_doing_handler, hget, truthy]
    exact congrArg (fun n => some (Ticket.assign_to db n Ticket.DOING (some user) user now))
      (show (Ticket.row_factory r).rowid = i from hri)
  · refine ⟨Ticket.assign_to db i Ticket.DOING (some a) user now, ?_,
      assignedRow r Ticket.DOING (some a) user now,
      (assign_to_findRow db i Ticket.DOING (some a) user now r h).1, rfl, rfl⟩
    simp only [assign_doing_handler, hget, hta]
    exact congrArg (fun n => some (Ticket.assign_to db n Ticket.DOING (some a) user now))
      (show (Ticket.row_factory r).rowid = i from hri)

/-- Witness for C7 on a concrete one-row database with assignee
"bob". -/
theorem transition_handlers_assignment_witness :
    (findRow sampleDb 1 = some sampleRow ∧ "bob" ≠ "") ∧
    ((∃ res, assign_todo_handler sampleDb 1 none "carol" ⟨1700000100, 0⟩ = some res ∧
      ∃ r2, findRow res.1 1 = some r2 ∧
        r2.status = Ticket.TODO ∧ r2.assigned_to = none) ∧
    (∃ res, assign_todo_handler sampleDb 1 (some "bob") "carol" ⟨1700000100, 0⟩ = some res ∧
      ∃ r2, findRow res.1 1 = some r2 ∧
        r2.status = Ticket.TODO ∧ r2.assigned_to = some "bob") ∧
    (∃ res, assign_doing_handler sampleDb 1 none "carol" ⟨1700000100, 0⟩ = some res ∧
      ∃ r2, findRow res.1 1 = some r2 ∧
        r2.status = Ticket.DOING ∧ r2.assigned_to = some "carol") ∧
    (∃ res, assign_doing_handler sampleDb 1 (some "bob") "carol" ⟨1700000100, 0⟩ = some res ∧
      ∃ r2, findRow res.1 1 = some r2 ∧
        r2.status = Ticket.DOING ∧ r2.assigned_to = some "bob")) :=
  ⟨⟨rfl, by decide⟩,
   transition_handlers_assignment sampleDb 1 "carol" "bob" ⟨1700000100, 0⟩
     sampleRow rfl (by decide)⟩

theorem mark_as_done_findRow (db : List Row) (i : Nat) (notes ub : String)
    (now : DateTime) (r : Row) (h : findRow db i = some r) :
    findRow (Ticket.mark_as_done db i notes ub now).1 i
      = some (doneRow r notes ub now) ∧
    (Ticket.mark_as_done db i notes ub now).2
      = some (Ticket.row_factory (doneRow r notes ub now)) := by
  simp only [Ticket.mark_as_done]
  rw [findRow_dbUpdate db i (fun x => doneRow x notes ub now) (fun _ => rfl), h]
  exact ⟨rfl, rfl⟩

/-- C8: the fields name, description, project, created_by and
created_at (and the rowid) are never mutated: both `assign_to` and
`mark_as_done` leave them unchanged on the stored row — `assign_to`
also leaves notes unchanged — modifying only status, assigned_to, notes
(`mark_as_done` only), updated_by and updated_at. -/
theorem immutable_fields_frame (db : List Row) (i : Nat) (st : String)
    (ato : Option String) (notes ub : String) (now : DateTime) (r : Row)
    (h : findRow db i = some r) :
    (∃ r2, findRow (Ticket.assign_to db i st ato ub now).1 i = some r2 ∧
      r2.rowid = r.rowid ∧ r2.name = r.name ∧
      r2.description = r.description ∧ r2.project = r.project ∧
      r2.created_by = r.created_by ∧ r2.created_at = r.created_at ∧
      r2.notes = r.notes ∧
      r2.status = st ∧ r2.assigned_to = ato ∧
      r2.updated_by = some ub ∧
      r2.updated_at = some (adapt_datetime_epoch now)) ∧
    (∃ r2, findRow (Ticket.mark_as_done db i notes ub now).1 i = some r2 ∧
      r2.rowid = r.rowid ∧ r2.name = r.name ∧
      r2.description = r.description ∧ r2.project = r.project ∧
      r2.created_by = r.created_by ∧ r2.created_at = r.created_at ∧
      r2.status = Ticket.DONE ∧ r2.assigned_to = none ∧
      r2.notes = notes ∧
      r2.updated_by = some ub ∧
      r2.updated_at = some (adapt_datetime_epoch now)) :=
  ⟨⟨assignedRow r st ato ub now,
    (assign_to_findRow db i st ato ub now r h).1,
    rfl, rfl, rfl, rfl, rfl, rfl, rfl, rfl, rfl, rfl, rfl⟩,
   ⟨doneRow r notes ub now,
    (mark_as_done_findRow db i notes ub now r h).1,
    rfl, rfl, rfl, rfl, rfl, rfl, rfl, rfl, rfl, rfl, rfl⟩⟩

/-- Witness for C8 on a concrete one-row database. -/
theorem immutable_fields_frame_witness :
    findRow sampleDb 1 = some sampleRow ∧
    ((∃ r2, findRow (Ticket.assign_to sampleDb 1 Ticket.DOING (some "bob") "bob" ⟨1700000100, 0⟩).1 1 = some r2 ∧
      r2.rowid = sampleRow.rowid ∧ r2.name = sampleRow.name ∧
      r2.description = sampleRow.description ∧ r2.project = sampleRow.project ∧
      r2.created_by = sampleRow.created_by ∧ r2.created_at = sampleRow.created_at ∧
      r2.notes = sampleRow.notes ∧
      r2.status = Ticket.DOING ∧ r2.assigned_to = some "bob" ∧
      r2.updated_by = some "bob" ∧
      r2.updated_at = some (adapt_datetime_epoch ⟨1700000100, 0⟩)) ∧
    (∃ r2, findRow (Ticket.mark_as_done sampleDb 1 "fixed" "bob" ⟨1700000100, 0⟩).1 1 = some r2 ∧
      r2.rowid = sampleRow.rowid ∧ r2.name = sampleRow.name ∧
      r2.description = sampleRow.description ∧ r2.project = sampleRow.project ∧
      r2.created_by = sampleRow.created_by ∧ r2.created_at = sampleRow.created_at ∧
      r2.status = Ticket.DONE ∧ r2.assigned_to = none ∧
      r2.notes = "fixed" ∧
      r2.updated_by = some "bob" ∧
      r2.updated_at = some (adapt_datetime_epoch ⟨1700000100, 0⟩))) :=
  ⟨rfl,
   immutable_fields_frame sampleDb 1 Ticket.DOING (some "bob") "fixed" "bob"
     ⟨1700000100, 0⟩ sampleRow rfl⟩

/-- C9: neither transition checks the current status as a precondition:
for every existing ticket, whatever its stored status — in particular a
DONE one — `assign_to` applies its update and returns the updated row
with the requested status, and `mark_as_done` completes it again. -/
theorem transitions_ignore_prior_status (db : List Row) (i : Nat)
    (st : String) (ato : Option String) (notes ub : String)
    (now : DateTime) (r : Row) (h : findRow db i = some r) :
    ((Ticket.assign_to db i st ato ub now).2
       = some (Ticket.row_factory (assignedRow r st ato ub now)) ∧
     ∃ r2, findRow (Ticket.assign_to db i st ato ub now).1 i = some r2 ∧
       r2.status = st) ∧
    ((Ticket.mark_as_done db i notes ub now).2
       = some (Ticket.row_factory (doneRow r notes ub now)) ∧
     ∃ r2, findRow (Ticket.mark_as_done db i notes ub now).1 i = some r2 ∧
       r2.status = Ticket.DONE) :=
  ⟨⟨(assign_to_findRow db i st ato ub now r h).2,
    assignedRow r st ato ub now,
    (assign_to_findRow db i st ato ub now r h).1, rfl⟩,
   ⟨(mark_as_done_findRow db i notes ub now r h).2,
    doneRow r notes ub now,
    (mark_as_done_findRow db i notes ub now r h).1, rfl⟩⟩

/-- Witness for C9: the sample ticket is DONE, and is transitioned back
to TODO (and completed again) regardless. -/
theorem transitions_ignore_prior_status_witness :
    (findRow sampleDb 1 = some sampleRow ∧ sampleRow.status = Ticket.DONE) ∧
    (((Ticket.assign_to sampleDb 1 Ticket.TODO none "bob" ⟨1700000100, 0⟩).2
       = some (Ticket.row_factory (assignedRow sampleRow Ticket.TODO none "bob" ⟨1700000100, 0⟩)) ∧
     ∃ r2, findRow (Ticket.assign_to sampleDb 1 Ticket.TODO none "bob" ⟨1700000100, 0⟩).1 1 = some r2 ∧
       r2.status = Ticket.TODO) ∧
    ((Ticket.mark_as_done sampleDb 1 "redone" "bob" ⟨1700000100, 0⟩).2
       = some (Ticket.row_factory (doneRow sampleRow "redone" "bob" ⟨1700000100, 0⟩)) ∧
     ∃ r2, findRow (Ticket.mark_as_done sampleDb 1 "redone" "bob" ⟨1700000100, 0⟩).1 1 = some r2 ∧
       r2.status = Ticket.DONE)) :=
  ⟨⟨rfl, rfl⟩,
   transitions_ignore_prior_status sampleDb 1 Ticket.TODO none "redone" "bob"
     ⟨1700000100, 0⟩ sampleRow rfl⟩

/-- C10: an empty-string filter value is treated as absent rather than
as an exact-match predicate: supplying search, status, assigned_to or
created_by as the empty string adds no clause — the result and the
built SQL equal the unfiltered call — so an empty search returns the
unrestricted set, an empty-string assigned_to (or created_by) equality
is never applied, and a ticket whose assigned_to is the empty string
can never be singled out by such a filter. -/
theorem empty_string_filters_are_absent (fts : Row → String → Bool)
    (db : List Row) (s st a c : Option String) :
    (runListTickets fts db (some "") st a c = runListTickets fts db none st a c ∧
     runListTickets fts db s (some "") a c = runListTickets fts db s none a c ∧
     runListTickets fts db s st (some "") c = runListTickets fts db s st none c ∧
     runListTickets fts db s st a (some "") = runListTickets fts db s st a none) ∧
    (listTicketsSQL (some "") st a c = listTicketsSQL none st a c ∧
     listTicketsSQL s (some "") a c = listTicketsSQL s none a c ∧
     listTicketsSQL s st (some "") c = listTicketsSQL s st none c ∧
     listTicketsSQL s st a (some "") = listTicketsSQL s st a none) ∧
    runListTickets fts db (some "") none none none = db.map Ticket.row_factory ∧
    runListTickets fts db none none (some "") none = db.map Ticket.row_factory ∧
    runListTickets fts db none none none (some "") = db.map Ticket.row_factory :=
  ⟨⟨rfl, rfl, rfl, rfl⟩, ⟨rfl, rfl, rfl, rfl⟩, rfl, rfl, rfl⟩

end Jirre
